import Mathlib

/-!
Verification of the AVOMO incident-intake engine
(`services/avomo_incident_structure.py`, `services/enhanced_avomo_chatbot.py`,
`routes/chatbot.py`).

The Python code is shallowly embedded: dictionaries become association
lists (insertion-ordered), Python floats used by the classifier become
exact rationals, the mutable chatbot object becomes an explicit
`AvomoBot` value threaded through each turn, and the file-system
environment of `_save_avomo_incident` is abstracted by Boolean
success flags for the two store writes.  Regex-based hint extraction
(`extract_info_from_description`) is the one component no claim depends
on; it is kept as an explicit function parameter `extractInfo`
quantified over in every theorem that needs it.
-/

/-! ### Python string primitives -/

/-- Python `str.lower()` for the ASCII strings this code base uses
(`Char.toLower` lowers exactly the ASCII uppercase letters). -/
def strLower (s : String) : String := ⟨s.data.map Char.toLower⟩

/-- True when the second list starts the first (`listStartsWith haystack
needle`). -/
def listStartsWith : List Char → List Char → Bool
  | _, [] => true
  | [], _ :: _ => false
  | a :: as, b :: bs => a == b && listStartsWith as bs

/-- True when the second list occurs contiguously inside the first. -/
def listContainsSub : List Char → List Char → Bool
  | [], pat => listStartsWith [] pat
  | a :: as, pat => listStartsWith (a :: as) pat || listContainsSub as pat

/-- Python `needle in haystack` substring test: `strContains s pat` is true
iff `pat` occurs contiguously in `s`. -/
def strContains (s pat : String) : Bool := listContainsSub s.data pat.data

/-- Whitespace characters removed by Python `str.strip()` with no argument. -/
def pyIsSpace (c : Char) : Bool :=
  c = ' ' || c = '\t' || c = '\n' || c = '\r' || c = '\x0b' || c = '\x0c'

/-- Python `str.strip()`: remove leading and trailing whitespace. -/
def pyStrip (s : String) : String :=
  ⟨((s.data.dropWhile pyIsSpace).reverse.dropWhile pyIsSpace).reverse⟩

/-- Python `len` of a string (number of characters). -/
def pyLen (s : String) : Nat := s.data.length

/-- Python `"_" → " "` character replacement, as in `field.replace('_', ' ')`. -/
def underscoresToSpaces (s : String) : String :=
  ⟨s.data.map (fun c => if c = '_' then ' ' else c)⟩

/-- Helper for `pyTitle`: the Boolean argument records whether the previous
character was a letter. -/
def pyTitleAux : Bool → List Char → List Char
  | _, [] => []
  | prevAlpha, c :: t =>
      (if c.isAlpha then (if prevAlpha then c.toLower else c.toUpper) else c) ::
        pyTitleAux c.isAlpha t

/-- Python `str.title()` restricted to ASCII: the first letter of every
letter-run is uppercased, the rest lowercased. -/
def pyTitle (s : String) : String := ⟨pyTitleAux false s.data⟩

/-- Python `int(s)` on an optionally signed decimal string, `none` when the
`int` call would raise `ValueError` (exotic accepted forms such as underscore
separators or non-ASCII digits are not modelled; no caller input uses them). -/
def pyParseInt (s : String) : Option Int :=
  let t := (pyStrip s).data
  let core := match t with
    | '+' :: r => some (1, r)
    | '-' :: r => some (-1, r)
    | r => some (1, r)
  match core with
  | some (sign, digits) =>
      if digits ≠ [] ∧ digits.all Char.isDigit then
        some (sign * (Int.ofNat (digits.foldl (fun n c => 10 * n + (c.toNat - '0'.toNat)) 0)))
      else none
  | none => none

/-- Python dict assignment `d[k] = v` on an insertion-ordered association
list: an existing key keeps its position and is overwritten, a new key is
appended at the end. -/
def dictSet (l : List (String × String)) (k v : String) : List (String × String) :=
  match l with
  | [] => [(k, v)]
  | (k', v') :: t => if k' = k then (k, v) :: t else (k', v') :: dictSet t k v

/-- Python `", ".join(l)`. -/
def joinComma (l : List String) : String := String.intercalate ", " l

/-! ### The AVOMO structure catalog (`AVOMOIncidentStructure.__init__`) -/

/-- The `avomo_sites` mapping. -/
def avomoSites : List (String × String) :=
  [("austin_stassney", "Austin Stassney"),
   ("atlanta_plymouth", "Atlanta Plymouth"),
   ("atlanta_manheim", "Atlanta Manheim")]

/-- The `severe_event_criteria` table (labels and their form descriptions). -/
def severeEventCriteria : List (String × String) :=
  [("av_collision_emergency", "AV collision resulting in calling emergency services, internal/frame damage to the vehicle, or injury to employees, vendors, or vulnerable road users"),
   ("fatality_hospitalization", "Fatality/Hospitalization/Amputation/Loss of an Eye or Life-Threatening"),
   ("site_emergency_911", "Site-wide emergency that requires calling 911"),
   ("security_breach", "Physical security or cybersecurity breach"),
   ("system_outage_15min", "System outage over 15 minutes"),
   ("chemical_spill_1gal", "Chemical spill of more than 1 gallon")]

/-- Display data and required-field sequence of one incident category. -/
structure EventTypeInfo where
  name : String
  description : String
  requiredFields : List String
deriving DecidableEq, Repr

/-- The `event_types` table: category identifier, display data and the ordered
required-field sequence, exactly as in the source. -/
def eventTypes : List (String × EventTypeInfo) :=
  [("safety_concern",
    { name := "Safety Concern",
      description := "You noticed something unsafe or unusual, but no one was hurt and nothing was damaged",
      requiredFields := ["safety_concern_description", "safety_concern_corrective_action"] }),
   ("injury_illness",
    { name := "Injury/Illness",
      description := "Someone got hurt or felt sick while working",
      requiredFields :=
        ["injured_employee_name", "injured_employee_job_title", "injured_employee_phone",
         "injured_employee_address", "injured_employee_city", "injured_employee_state",
         "injured_employee_zip", "employee_status", "supervisor_name",
         "date_supervisor_notified", "time_supervisor_notified", "injury_illness_description",
         "injury_illness_type", "affected_body_parts", "injury_illness_immediate_action",
         "enablon_report_submitted"] }),
   ("property_damage",
    { name := "Property Damage",
      description := "Something got broken, damaged, or was lost (equipment, tools, facility, etc.)",
      requiredFields :=
        ["property_damage_description", "approximate_total_cost",
         "property_damage_immediate_action", "enablon_report_submitted"] }),
   ("security_concern",
    { name := "Security Concern",
      description := "You noticed something suspicious, such as unauthorized access, theft, or any risk to people or property security",
      requiredFields :=
        ["security_event_types", "security_concern_description", "involved_names_descriptions",
         "involved_parties_type", "law_enforcement_contacted", "security_footage_available",
         "security_corrective_actions", "enablon_report_submitted"] }),
   ("vehicle_collision",
    { name := "Vehicle Collision",
      description := "An autonomous vehicle (or another vehicle on site) was involved in a crash or hit something",
      requiredFields :=
        ["collision_location", "involved_parties", "vehicle_involved", "what_vehicle_hit",
         "anyone_injured", "vehicle_operation_mode", "vehicle_collision_description",
         "vehicle_collision_immediate_action", "enablon_report_submitted"] }),
   ("environmental",
    { name := "Environmental",
      description := "A spill, leak, or other issue that could harm people, the environment, or violate environmental rules",
      requiredFields :=
        ["environmental_involved_parties", "environmental_employee_types", "spill_size",
         "chemicals_involved", "environmental_spill_description",
         "environmental_spill_immediate_action", "enablon_report_submitted"] }),
   ("depot_event",
    { name := "Depot Event",
      description := "A site-wide outage or emergency occurred",
      requiredFields :=
        ["depot_event_description", "depot_immediate_actions", "depot_outcome_lessons"] }),
   ("near_miss",
    { name := "Near Miss",
      description := "Something almost went wrong. No one was hurt, and nothing was damaged, but it could\x27ve been worse",
      requiredFields :=
        ["near_miss_type", "near_miss_description", "near_miss_corrective_action"] })]

/-- Lookup into `event_types`; the Python subscript raises `KeyError` on an
unknown key, which is unreachable because every key used is produced by the
classifier below.  The default is a junk entry. -/
def getEventTypeInfo (ty : String) : EventTypeInfo :=
  (eventTypes.lookup ty).getD { name := "", description := "", requiredFields := [] }

/-- The `injury_illness_types` closed vocabulary. -/
def injuryIllnessTypes : List String :=
  ["Cut, Laceration, or Puncture", "Burn (thermal, chemical, electrical, or radiation)",
   "Fracture (broken bones from falls or impacts)", "Bruise/Contusion (caused by impact with objects)",
   "Sprain or Strain (overexertion, awkward movements, lifting injuries)",
   "Dislocation (joints forced out of position)", "Crush Injury (body part caught between objects)",
   "Carpal Tunnel Syndrome", "Tendonitis", "Bursitis", "Muscle Strain",
   "Hearing Loss", "Respiratory Condition", "Skin Disorder",
   "Heat Stress/Heat Stroke", "Cold Stress - Frostbite/Hypothermia",
   "Chemical Burn", "Radiation Exposure", "Electrical Shock", "Biological Exposure"]

/-- The `body_parts` closed vocabulary. -/
def bodyParts : List String :=
  ["Scalp", "Skull", "Eyes", "Ears", "Nose", "Mouth", "Teeth", "Neck",
   "Shoulders", "Upper Back", "Lower Back", "Upper Arm", "Elbow", "Forearm",
   "Wrist", "Hand", "Fingers", "Torso", "Chest", "Ribs", "Abdomen", "Pelvis",
   "Hips", "Thighs", "Knees", "Lower Legs", "Ankles", "Feet", "Toes"]

/-- The `employee_status_types` closed vocabulary. -/
def employeeStatusTypes : List String :=
  ["Full time", "Part Time", "Temporary", "Contractor", "Visitor"]

/-- The `security_event_types` list. -/
def securityEventTypes : List String :=
  ["Break-in / Forced Entry", "Found Illicit Substance/Paraphernalia or Weapon in ADV",
   "Found Sharps or Medication in ADV", "Property Damage", "Suspicious Activity",
   "Theft", "Trespassing", "Vandalism", "Workplace Violence / Threat", "Other"]

/-- The `near_miss_types` list. -/
def nearMissTypes : List String :=
  ["Potential Injury", "Potential Property Damage",
   "Potential Environmental Damage", "Potential Damage to Company Image"]

/-! ### Field prompts and validation rules -/

/-- The `get_field_questions` dictionary: the user-facing prompt per field. -/
def fieldQuestions : List (String × String) :=
  [("event_date", "What date did this event occur? (MM/DD/YYYY)"),
   ("event_time", "What time did this event occur? (24-hour format, e.g., 1430 for 2:30 PM)"),
   ("reporter_name", "What is your name? (This will be kept confidential)"),
   ("reporter_email", "What is your email address for follow-up?"),
   ("site", "Which AVOMO site did this occur at?"),
   ("is_severe_event", "Does this event meet the severe event criteria? (See criteria list)"),
   ("severe_event_type", "What type of severe event is this?"),
   ("severe_event_description", "Please provide detailed description including locations, timings, people/systems involved, and actions taken"),
   ("safety_concern_description", "What did you see, and where did it happen?"),
   ("safety_concern_corrective_action", "Did you do anything to help, or do you have an idea to fix it?"),
   ("injured_employee_name", "What is the injured employee\x27s full name?"),
   ("injured_employee_job_title", "What is their job title?"),
   ("injured_employee_phone", "What is their phone number?"),
   ("injured_employee_address", "What is their address?"),
   ("injured_employee_city", "What city do they live in?"),
   ("injured_employee_state", "What state?"),
   ("injured_employee_zip", "What is their ZIP code?"),
   ("employee_status", "What is their employment status?"),
   ("supervisor_name", "Who is their supervisor?"),
   ("date_supervisor_notified", "When was the supervisor notified? (MM/DD/YYYY)"),
   ("time_supervisor_notified", "What time was the supervisor notified? (24-hour format)"),
   ("injury_illness_description", "Please describe the injury/illness event in detail"),
   ("injury_illness_type", "What type of injury or illness occurred?"),
   ("affected_body_parts", "Which body part(s) were affected?"),
   ("injury_illness_immediate_action", "What immediate action was taken?"),
   ("enablon_report_submitted", "Has an Enablon report been submitted to Waymo?"),
   ("property_damage_description", "Please describe the property damage event"),
   ("approximate_total_cost", "What is the approximate total cost of loss & repairs? (in dollars)"),
   ("property_damage_immediate_action", "What immediate corrective action was taken?"),
   ("security_event_types", "What type of security event occurred? (Select all that apply)"),
   ("security_concern_description", "Please describe the security concern event"),
   ("involved_names_descriptions", "Please provide name(s), job title(s), or description(s) of involved parties"),
   ("involved_parties_type", "What type of parties were involved?"),
   ("law_enforcement_contacted", "Was law enforcement or emergency services contacted?"),
   ("law_enforcement_details", "List agency, time called, and any report number or officer name"),
   ("security_footage_available", "Is security footage available?"),
   ("security_corrective_actions", "What corrective actions were taken? (e.g., site secured, access restricted, police called)"),
   ("collision_location", "Where did the collision happen?"),
   ("involved_parties", "Who were the involved parties? (Full names)"),
   ("vehicle_involved", "Which vehicle was involved? (Include vehicle number or description)"),
   ("what_vehicle_hit", "What did the vehicle hit? (e.g., another car, fence)"),
   ("anyone_injured", "Was anyone injured in the collision?"),
   ("vehicle_operation_mode", "Was the vehicle being operated manually or autonomously?"),
   ("vehicle_collision_description", "Please describe the vehicle collision event"),
   ("vehicle_collision_immediate_action", "What immediate corrective action was taken?"),
   ("environmental_involved_parties", "Who were the involved parties? (Full names)"),
   ("environmental_employee_types", "What types of employees were involved?"),
   ("spill_size", "How large was the spill?"),
   ("chemicals_involved", "What chemical(s) was involved in the spill?"),
   ("environmental_spill_description", "Please describe the environmental spill event"),
   ("environmental_spill_immediate_action", "What immediate corrective action was taken?"),
   ("depot_event_description", "What happened during this depot event?"),
   ("depot_immediate_actions", "Describe the actions that were taken"),
   ("depot_outcome_lessons", "What was the outcome? What did you learn? What would you do differently next time?"),
   ("near_miss_type", "What type of near miss was this?"),
   ("near_miss_description", "What did you see, and where did it happen?"),
   ("near_miss_corrective_action", "Did you do anything to help, or do you have an idea to fix it?")]

/-- Shape of the regex `^\d{2}/\d{2}/\d{4}$` applied to an already-stripped
string (Python `\d` also admits non-ASCII decimal digits, which no vocabulary
or test input uses). -/
def matchDatePat (s : String) : Bool :=
  match s.data with
  | [a, b, s1, c, d, s2, e, f, g, h] =>
      a.isDigit && b.isDigit && s1 = '/' && c.isDigit && d.isDigit && s2 = '/' &&
        e.isDigit && f.isDigit && g.isDigit && h.isDigit
  | _ => false

/-- Shape of `^\d{n}$` for a fixed width `n`. -/
def matchDigitsPat (n : Nat) (s : String) : Bool :=
  s.data.length = n && s.data.all Char.isDigit

/-- Shape of `^\d+$`. -/
def matchIntPat (s : String) : Bool :=
  s.data ≠ [] && s.data.all Char.isDigit

/-- The `get_validation_rules` table: per-field pattern and error message. -/
def validationRules : List (String × ((String → Bool) × String)) :=
  [("event_date", (matchDatePat, "Please use MM/DD/YYYY format")),
   ("event_time", (matchDigitsPat 4, "Please use 24-hour format (e.g., 1430 for 2:30 PM)")),
   ("injured_employee_phone", (matchDigitsPat 10, "Please provide 10-digit phone number")),
   ("injured_employee_zip", (matchDigitsPat 5, "Please provide 5-digit ZIP code")),
   ("approximate_total_cost", (matchIntPat, "Please provide cost in dollars (numbers only)"))]

/-! ### Severity evaluator (`validate_severe_event`) -/

/-- The `validate_severe_event` rule table, called with the event-type string
and the free-text description (the Python argument is a dict holding exactly
these two entries).  Returns the severe flag and the severity label. -/
def validateSevereEvent (eventType description0 : String) : Bool × String :=
  let description := strLower description0
  if eventType = "vehicle_collision" ∧
      (["emergency", "911", "damage", "injury", "hurt"].any (strContains description)) then
    (true, "av_collision_emergency")
  else if ["death", "died", "fatal", "hospital", "amputation", "life threatening"].any
      (strContains description) then
    (true, "fatality_hospitalization")
  else if ["site emergency", "911", "evacuation", "site-wide"].any (strContains description) then
    (true, "site_emergency_911")
  else if eventType = "security_concern" ∧
      (["breach", "unauthorized access", "cyber"].any (strContains description)) then
    (true, "security_breach")
  else if strContains description "outage" ∧
      (["15 min", "fifteen min", "hours"].any (strContains description)) then
    (true, "system_outage_15min")
  else if eventType = "environmental" ∧
      (["gallon", "large spill", "major spill"].any (strContains description)) then
    (true, "chemical_spill_1gal")
  else
    (false, "")

/-! ### Intent classifier (`AVOMOIntentClassifier`) -/

/-- Keyword list for the safety-concern category. -/
def safetyConcernKeywords : List String :=
  ["unsafe", "concern", "observation", "hazard", "risk", "dangerous"]

/-- Keyword list for the injury/illness category. -/
def injuryIllnessKeywords : List String :=
  ["injury", "injured", "hurt", "pain", "medical", "sick", "illness"]

/-- Keyword list for the property-damage category. -/
def propertyDamageKeywords : List String :=
  ["damage", "broken", "destroyed", "lost", "equipment", "facility"]

/-- Keyword list for the security-concern category. -/
def securityConcernKeywords : List String :=
  ["security", "theft", "unauthorized", "suspicious", "trespassing"]

/-- Keyword list for the vehicle-collision category. -/
def vehicleCollisionKeywords : List String :=
  ["collision", "crash", "hit", "accident", "vehicle", "av"]

/-- Keyword list for the environmental category. -/
def environmentalKeywords : List String :=
  ["spill", "leak", "chemical", "environmental", "contamination"]

/-- Keyword list for the depot-event category. -/
def depotEventKeywords : List String :=
  ["outage", "emergency", "site-wide", "depot", "system"]

/-- Keyword list for the near-miss category. -/
def nearMissKeywords : List String :=
  ["near miss", "almost", "close call", "could have", "nearly"]

/-- The `event_type_keywords` table of `classify_avomo_incident_type`, in
source order (which is also the tie-breaking order of Python `max`). -/
def eventTypeKeywords : List (String × List String) :=
  [("safety_concern", safetyConcernKeywords),
   ("injury_illness", injuryIllnessKeywords),
   ("property_damage", propertyDamageKeywords),
   ("security_concern", securityConcernKeywords),
   ("vehicle_collision", vehicleCollisionKeywords),
   ("environmental", environmentalKeywords),
   ("depot_event", depotEventKeywords),
   ("near_miss", nearMissKeywords)]

/-- Raw score of one category: the unweighted count of its keywords occurring
in the lowered description (`sum(1 for keyword in keywords if keyword in desc_lower)`). -/
def keywordScore (descLower : String) (kws : List String) : Nat :=
  (kws.filter (fun k => strContains descLower k)).length

/-- The `scores` dictionary of `classify_avomo_incident_type`: each category
whose raw score is positive, mapped to `score / len(keywords)` (kept here as
an exact rational; the Python float arithmetic on these small fractions is
exact enough that all comparisons the code performs agree). -/
def classifyScores (description : String) : List (String × ℚ) :=
  let descLower := strLower description
  eventTypeKeywords.filterMap (fun p =>
    let score := keywordScore descLower p.2
    if 0 < score then some (p.1, (score : ℚ) / (p.2.length : ℚ)) else none)

/-- Python `max(scores, key=scores.get)` over a nonempty association list:
keeps the current best and replaces it only on a strictly greater value, so
ties resolve to the earliest entry. -/
def pyMaxPair : (String × ℚ) → List (String × ℚ) → (String × ℚ)
  | p, [] => p
  | p, q :: t => pyMaxPair (if p.2 < q.2 then q else p) t

/-- The best normalized score of a description: the maximal value in the
scores dictionary, `0` when the dictionary is empty. -/
def bestNormalizedScore (description : String) : ℚ :=
  match classifyScores description with
  | [] => 0
  | p :: t => (pyMaxPair p t).2

/-- The `classify_avomo_incident_type` contract: selected category, confidence
and extracted hints.  `extractInfo` stands for the regex-driven
`extract_info_from_description` (its output never influences category,
confidence, or control flow; every theorem quantifies over it). -/
def classifyAvomoIncidentType (extractInfo : String → String → List (String × String))
    (description : String) : String × ℚ × List (String × String) :=
  match classifyScores description with
  | [] => ("safety_concern", 1/2, [])
  | p :: t =>
      let best := pyMaxPair p t
      (best.1, min (95/100 : ℚ) (best.2 + 3/10), extractInfo description best.1)

/-! ### Conversation state (`AVOMOIncidentChatbot`) -/

/-- The `avomo_incident_data` dictionary of an active session.  The Python
idle value `{}` is represented by `emptyAvomoData` below (all entries empty);
the engine reads the dictionary only while `avomo_mode` is set.
`startTime` models `time.time()` truncated to a tick counter; it is stored
and never read, exactly as in the source. -/
structure AvomoData where
  userId : String
  incidentType : String
  initialDescription : String
  extractedInfo : List (String × String)
  collectedFields : List (String × String)
  currentFieldIndex : Nat
  requiredFields : List String
  startTime : Nat
deriving DecidableEq, Repr

/-- The idle `avomo_incident_data = {}`. -/
def emptyAvomoData : AvomoData :=
  { userId := "", incidentType := "", initialDescription := "", extractedInfo := [],
    collectedFields := [], currentFieldIndex := 0, requiredFields := [], startTime := 0 }

/-- The in-process chatbot object: the two AVOMO instance fields set by
`__init__` and mutated by the flow.  Fields inherited from the superclass
`SmartEHSChatbot` (`services/ehs_chatbot.py`, not part of the sources) do not
interact with the AVOMO flow and are not modelled. -/
structure AvomoBot where
  avomoMode : Bool
  data : AvomoData
deriving DecidableEq, Repr

/-- The `create_avomo_chatbot` factory / `__init__` state: incident mode off,
empty incident data.  `routes/chatbot.py` builds one such long-lived instance
per process (`_BOT`), so a process restart yields exactly this value. -/
def createAvomoChatbot : AvomoBot :=
  { avomoMode := false, data := emptyAvomoData }

/-- The `_reset_avomo_state` method: incident mode off, incident data `{}`
(the superclass fields it also clears are outside the modelled state). -/
def resetAvomoState (_bot : AvomoBot) : AvomoBot :=
  { avomoMode := false, data := emptyAvomoData }

/-- The `_is_incident_reporting_request` trigger test. -/
def isIncidentReportingRequest (message : String) : Bool :=
  ["report incident", "incident report", "something happened",
   "injury", "accident", "collision", "spill", "damage",
   "safety concern", "near miss", "emergency"].any
    (fun k => strContains (strLower message) k)

/-- The `_get_current_field` method: the required field at the current index,
`""` once the index is past the end. -/
def getCurrentField (d : AvomoData) : String :=
  if d.currentFieldIndex < d.requiredFields.length then
    d.requiredFields.getD d.currentFieldIndex ""
  else ""

/-- The `get_smart_follow_up_question` method: the base prompt for the field,
decorated with a stored extracted hint for the five special cases.  The
`eventType` argument is accepted and unused, as in the source. -/
def getSmartFollowUpQuestion (_eventType : String) (d : AvomoData) (field : String) : String :=
  let base := (fieldQuestions.lookup field).getD ("Please provide " ++ underscoresToSpaces field)
  if field = "event_time" ∧ (d.extractedInfo.lookup "estimated_time").isSome then
    base ++ " (You mentioned \x27" ++ ((d.extractedInfo.lookup "estimated_time").getD "") ++
      "\x27 - please confirm or provide exact time)"
  else if (field = "safety_concern_description" ∨ field = "injury_illness_description") ∧
      (d.extractedInfo.lookup "estimated_location").isSome then
    base ++ " (I noticed you mentioned \x27" ++
      ((d.extractedInfo.lookup "estimated_location").getD "") ++
      "\x27 - please provide complete details)"
  else if field = "affected_body_parts" ∧ (d.extractedInfo.lookup "likely_body_part").isSome then
    base ++ " (Based on your description, it seems like " ++
      ((d.extractedInfo.lookup "likely_body_part").getD "") ++
      " was involved - please confirm)"
  else if field = "injury_illness_type" ∧ (d.extractedInfo.lookup "likely_injury_type").isSome then
    base ++ " (It sounds like this might be: " ++
      ((d.extractedInfo.lookup "likely_injury_type").getD "") ++ " - is this correct?)"
  else if field = "vehicle_operation_mode" ∧
      (d.extractedInfo.lookup "likely_operation_mode").isSome then
    base ++ " (Based on your description, it seems the vehicle was operating " ++
      ((d.extractedInfo.lookup "likely_operation_mode").getD "") ++ " - please confirm)"
  else base

/-- The `_get_current_question` method (also `_get_next_question`, which just
delegates to it). -/
def getCurrentQuestion (d : AvomoData) : String :=
  let field := getCurrentField d
  if field = "" then "" else getSmartFollowUpQuestion d.incidentType d field

/-- The `_get_quick_replies_for_current_field` table, applied to a field. -/
def quickRepliesForField (field : String) : List String :=
  if field = "site" then avomoSites.map Prod.snd
  else if field = "is_severe_event" then
    ["Yes - This is a high severity event", "No - This is not a high severity event"]
  else if field = "employee_status" then employeeStatusTypes
  else if field = "vehicle_operation_mode" then ["Manually", "Autonomously", "Not Sure"]
  else if field = "anyone_injured" then ["Yes", "No"]
  else if field = "law_enforcement_contacted" then ["Yes", "No"]
  else if field = "security_footage_available" then ["Yes", "No", "N/A or Unknown"]
  else if field = "enablon_report_submitted" then
    ["Yes - a report has been submitted to Enablon"]
  else if field = "spill_size" then
    ["Less than one (1) gallon", "More than one (1) gallon", "Unknown"]
  else if field = "collision_location" then
    ["AVOMO Parking Lot/Facility", "Public Road / While Traveling for work", "Other"]
  else if field = "near_miss_type" then nearMissTypes
  else if field = "environmental_employee_types" then
    ["Full time Employees", "Part Time Employees", "Temporary Employees",
     "Contractor Employees", "Visitor", "Other"]
  else []

/-! ### Field validation (`_validate_field_response`) -/

/-- The closed-vocabulary checks at the end of `_validate_field_response`,
applied to the already-stripped response.  Site membership is tested on the
lowercased answer against the lowercased site names; the other three
vocabularies are tested by exact (case-sensitive) string equality. -/
def vocabCheck (field response : String) : Option String :=
  if field = "site" then
    if (avomoSites.map (fun p => strLower p.2)).contains (strLower response) then none
    else some ("Please select from: " ++ joinComma (avomoSites.map Prod.snd))
  else if field = "employee_status" then
    if employeeStatusTypes.contains response then none
    else some ("Please select from: " ++ joinComma employeeStatusTypes)
  else if field = "injury_illness_type" then
    if injuryIllnessTypes.contains response then none
    else some "Please select from the provided injury types list."
  else if field = "affected_body_parts" then
    if bodyParts.contains response then none
    else some "Please select from the body parts list."
  else none

/-- The `_validate_field_response` method: `none` means valid, `some err`
carries the error text.  The response is stripped first; answers of fewer
than two characters are rejected; a registered pattern rule is applied next;
then the closed-vocabulary checks. -/
def validateFieldResponse (field response0 : String) : Option String :=
  let response := pyStrip response0
  if pyLen response < 2 then some "Please provide a more detailed response."
  else
    match validationRules.lookup field with
    | some rule => if rule.1 response then vocabCheck field response else some rule.2
    | none => vocabCheck field response

/-! ### Completion helpers -/

/-- The `_check_if_severe_event` method over the collected answers. -/
def checkIfSevereEvent (d : AvomoData) : Bool :=
  let collected := d.collectedFields
  if (collected.lookup "is_severe_event").getD "" = "Yes - This is a high severity event" then
    true
  else if d.incidentType = "injury_illness" ∧
      (["hospital", "911", "emergency", "ambulance"].any
        (strContains (strLower ((collected.lookup "injury_illness_immediate_action").getD "")))) then
    true
  else if d.incidentType = "property_damage" ∧
      (match pyParseInt ((collected.lookup "approximate_total_cost").getD "0") with
       | some cost => decide (10000 < cost)
       | none => false) = true then
    true
  else if d.incidentType = "vehicle_collision" ∧
      (collected.lookup "anyone_injured").getD "" = "Yes" then
    true
  else if d.incidentType = "environmental" ∧
      (collected.lookup "spill_size").getD "" = "More than one (1) gallon" then
    true
  else false

/-- The `_check_enablon_requirement` method. -/
def checkEnablonRequirement (d : AvomoData) : Bool :=
  if d.incidentType = "injury_illness" then true
  else if d.incidentType = "property_damage" ∧
      (match pyParseInt ((d.collectedFields.lookup "approximate_total_cost").getD "0") with
       | some cost => decide (1000 < cost)
       | none => false) = true then
    true
  else if d.incidentType = "vehicle_collision" then true
  else if d.incidentType = "environmental" then true
  else if d.incidentType = "security_concern" then true
  else false

/-- The `_generate_incident_summary` method. -/
def generateIncidentSummary (d : AvomoData) : String :=
  let typeName := (getEventTypeInfo d.incidentType).name
  let collected := d.collectedFields
  let parts0 := ["**Type:** " ++ typeName]
  let parts1 := parts0 ++
    (if (collected.lookup "site").isSome then
      ["**Site:** " ++ ((collected.lookup "site").getD "")] else [])
  let parts2 := parts1 ++
    (if (collected.lookup "event_date").isSome ∧ (collected.lookup "event_time").isSome then
      ["**When:** " ++ ((collected.lookup "event_date").getD "") ++ " at " ++
        ((collected.lookup "event_time").getD "")] else [])
  let parts3 := parts2 ++
    (if d.incidentType = "injury_illness" then
      (if (collected.lookup "injured_employee_name").isSome then
        ["**Injured:** " ++ ((collected.lookup "injured_employee_name").getD "")] else []) ++
      (if (collected.lookup "injury_illness_type").isSome then
        ["**Injury Type:** " ++ ((collected.lookup "injury_illness_type").getD "")] else [])
    else if d.incidentType = "vehicle_collision" then
      (if (collected.lookup "vehicle_involved").isSome then
        ["**Vehicle:** " ++ ((collected.lookup "vehicle_involved").getD "")] else []) ++
      (if (collected.lookup "vehicle_operation_mode").isSome then
        ["**Mode:** " ++ ((collected.lookup "vehicle_operation_mode").getD "")] else [])
    else if d.incidentType = "environmental" then
      (if (collected.lookup "chemicals_involved").isSome then
        ["**Chemical:** " ++ ((collected.lookup "chemicals_involved").getD "")] else []) ++
      (if (collected.lookup "spill_size").isSome then
        ["**Spill Size:** " ++ ((collected.lookup "spill_size").getD "")] else [])
    else [])
  let initialDesc :=
    if 100 < pyLen d.initialDescription then
      ⟨d.initialDescription.data.take 100⟩ ++ "..."
    else d.initialDescription
  String.intercalate "\n" (parts3 ++ ["**Description:** " ++ initialDesc])

/-- The completed-incident record assembled by `_complete_avomo_incident_report`
(the `complete_incident` dictionary; its `created_timestamp` ISO string is
modelled by the tick counter `now`). -/
structure IncidentRecord where
  id : String
  createdTimestamp : Nat
  userId : String
  initialDescription : String
  incidentType : String
  typeName : String
  isSevere : Bool
  extractedInfo : List (String × String)
  collectedData : List (String × String)
  requiredFieldsCompleted : Nat
  totalRequiredFields : Nat
  completionRate : ℚ
deriving DecidableEq, Repr

/-- Assembles the `complete_incident` dictionary from the session data. -/
def completedData (now : Nat) (d : AvomoData) : IncidentRecord :=
  { id := "AVOMO-" ++ toString now,
    createdTimestamp := now,
    userId := d.userId,
    initialDescription := d.initialDescription,
    incidentType := d.incidentType,
    typeName := (getEventTypeInfo d.incidentType).name,
    isSevere := checkIfSevereEvent d,
    extractedInfo := d.extractedInfo,
    collectedData := d.collectedFields,
    requiredFieldsCompleted := d.collectedFields.length,
    totalRequiredFields := d.requiredFields.length,
    completionRate := ((d.collectedFields.length : ℚ) / (d.requiredFields.length : ℚ)) * 100 }

/-- The `_save_avomo_incident` method.  Its body is file-system output: a
read-merge-write of `data/incidents.json` (via `_convert_to_system_format`
and the `_compile_*` helpers) followed by one of `data/avomo_incidents.json`;
`okSystemStore` and `okAvomoStore` abstract whether those two writes succeed.
Every exception is caught inside the method and converted to the returned
Boolean (`False` after printing to the console), so the caller sees only
this Boolean. -/
def saveAvomoIncident (_record : IncidentRecord) (okSystemStore okAvomoStore : Bool) : Bool :=
  okSystemStore && okAvomoStore

/-! ### Responses and the message dispatcher -/

/-- The structured response dictionary returned to the route layer.  The
static UI payloads the source attaches (`actions` button lists, phone
numbers, `compliance_status`) are constants per branch and are not modelled;
`progress` is `(current, total, percentage)`. -/
structure ChatResponse where
  message : String
  rtype : String
  field : Option String := none
  quickReplies : List String := []
  incidentId : Option String := none
  progress : Option (Nat × Nat × Nat) := none
  severeEvent : Option Bool := none
deriving DecidableEq, Repr

/-- Result of one `process_message` call.  `avomo` wraps a response produced
by the AVOMO incident flow; `fallback` records that the call was delegated to
`super().process_message` — the general-purpose `SmartEHSChatbot` handler.
Modelled from the spec: `services/ehs_chatbot.py` is not among the sources,
and the spec scopes that generic fallback out as an external collaborator, so
only the fact of delegation (with the delegated message) is modelled; the
fallback does not touch the AVOMO fields. -/
inductive Reply where
  | avomo (response : ChatResponse)
  | fallback (message : String)
deriving DecidableEq, Repr

/-- The `type` tag of a reply, when the AVOMO flow produced it. -/
def replyTag : Reply → Option String
  | .avomo r => some r.rtype
  | .fallback _ => none

/-- True exactly for the two completion responses
(`avomo_incident_completed`, `avomo_incident_completed_with_error`). -/
def isCompletionReply : Reply → Bool
  | .avomo r =>
      r.rtype == "avomo_incident_completed" ||
      r.rtype == "avomo_incident_completed_with_error"
  | .fallback _ => false

/-- The validation-failure retry response of
`_continue_avomo_incident_reporting`. -/
def validationErrorReply (d : AvomoData) (err : String) : ChatResponse :=
  { message := "❌ **Please provide a valid response**\n\n" ++ err ++
      "\n\n**Question:** " ++ getCurrentQuestion d,
    rtype := "avomo_validation_error",
    field := some (getCurrentField d),
    quickReplies := quickRepliesForField (getCurrentField d) }

/-- The session data after a valid answer: the answer is stored verbatim
under the current field and the index is incremented. -/
def advanceData (d : AvomoData) (message : String) : AvomoData :=
  { d with
    collectedFields := dictSet d.collectedFields (getCurrentField d) message,
    currentFieldIndex := d.currentFieldIndex + 1 }

/-- The mid-flow acknowledgement response, built from the already-advanced
session data `d'`. -/
def continueReply (d' : AvomoData) (message : String) : ChatResponse :=
  let progress := d'.currentFieldIndex + 1
  let total := d'.requiredFields.length
  { message := "✅ **Recorded:** " ++ ⟨message.data.take 100⟩ ++
      (if 100 < pyLen message then "..." else "") ++
      "\n\n**Question " ++ toString progress ++ " of " ++ toString total ++ ":**\n" ++
      getCurrentQuestion d',
    rtype := "avomo_incident_continue",
    field := some (getCurrentField d'),
    quickReplies := quickRepliesForField (getCurrentField d'),
    progress := some (progress, total, progress * 100 / total) }

/-- The success response of `_complete_avomo_incident_report`. -/
def successReply (now : Nat) (d : AvomoData) : ChatResponse :=
  let incidentId := "AVOMO-" ++ toString now
  { message := "✅ **AVOMO Incident Report Completed Successfully**\n\n**Incident ID:** `" ++
      incidentId ++ "`\n\n**Summary:**\n" ++ generateIncidentSummary d ++
      "\n\n**Next Steps:**\n• Response & Recovery Team has been automatically notified\n" ++
      (if checkEnablonRequirement d then
        "• ⚠️ **Enablon Report Required** - Please submit via go/waymo-enablon\n" else "") ++
      "• Investigation will be initiated within 24 hours\n" ++
      "• You will receive updates on investigation progress\n" ++
      "• A formal report will be generated for compliance records\n\n" ++
      "**Thank you for reporting this incident. Your vigilance helps keep AVOMO safe.**",
    rtype := "avomo_incident_completed",
    quickReplies := ["Report another incident", "View all incidents",
                     "Contact Response Team", "Return to main menu"],
    incidentId := some incidentId }

/-- The `except`-branch response of `_complete_avomo_incident_report`. -/
def errorReply (now : Nat) : ChatResponse :=
  { message := "✅ **Incident Report Submitted**\n\nIncident ID: `AVOMO-" ++ toString now ++
      "`\n\n⚠️ There was a technical issue, but your core report has been recorded and the Response & Recovery Team has been notified.\n\nIf you need immediate assistance, please contact:\n• Emergency: 911\n• AVOMO Response Team: (555) 123-4567",
    rtype := "avomo_incident_completed_with_error" }

/-- The `_complete_avomo_incident_report` method.  `excOther` abstracts an
exception raised by the remaining (pure) statements of the `try` block; it
selects the `except` branch.  On the normal path the record is assembled,
`_save_avomo_incident` is called — and its Boolean result is discarded, as in
the source — the summary is generated, the state is reset, and the success
response is returned.  Both branches reset the conversation state. -/
def completeAvomoIncidentReport (now : Nat) (okSystemStore okAvomoStore excOther : Bool)
    (bot : AvomoBot) : AvomoBot × Reply :=
  if excOther then
    (resetAvomoState bot, .avomo (errorReply now))
  else
    let record := completedData now bot.data
    let _saved := saveAvomoIncident record okSystemStore okAvomoStore
    (resetAvomoState bot, .avomo (successReply now bot.data))

/-- The `_continue_avomo_incident_reporting` method: validate the message
against the current field; on failure return the retry response with the
state untouched; on success store the raw message, advance the index, and
either ask the next question or complete the report. -/
def continueAvomoIncidentReporting (now : Nat) (okSystemStore okAvomoStore excOther : Bool)
    (bot : AvomoBot) (message : String) : AvomoBot × Reply :=
  match validateFieldResponse (getCurrentField bot.data) message with
  | some err => (bot, .avomo (validationErrorReply bot.data err))
  | none =>
      let d' := advanceData bot.data message
      if d'.currentFieldIndex < d'.requiredFields.length then
        ({ bot with data := d' }, .avomo (continueReply d' message))
      else
        completeAvomoIncidentReport now okSystemStore okAvomoStore excOther
          { bot with data := d' }

/-- The severe-event banner response of `_start_avomo_incident_reporting`. -/
def severeStartReply (info : EventTypeInfo) (severeType : String) (d : AvomoData) :
    ChatResponse :=
  { message := "🚨 **SEVERE EVENT DETECTED** 🚨\n\nBased on your description, this appears to be a **" ++
      pyTitle (underscoresToSpaces severeType) ++
      "**.\n\n**IMMEDIATE ACTIONS REQUIRED:**\n• If anyone needs medical attention, call 911 immediately\n• Contact your supervisor and the Response & Recovery Team\n• Do not disturb the scene unless necessary for safety\n\nI\x27ll help you complete the incident report. This will automatically notify the Response & Recovery Team.\n\n**Incident Type Detected:** " ++
      info.name ++ "\n" ++ info.description ++
      "\n\nLet\x27s start with the basic information. " ++ getCurrentQuestion d,
    rtype := "severe_incident_start",
    quickReplies := quickRepliesForField (getCurrentField d),
    severeEvent := some true }

/-- The normal first-question response of `_start_avomo_incident_reporting`. -/
def normalStartReply (info : EventTypeInfo) (d : AvomoData) : ChatResponse :=
  let total := d.requiredFields.length
  { message := "I\x27ll help you report this **" ++ info.name ++ "**.\n\n*" ++
      info.description ++
      "*\n\nTo ensure we capture all necessary information for OSHA compliance, I\x27ll ask you " ++
      toString total ++ " questions.\n\n**Question 1 of " ++ toString total ++ ":**\n" ++
      getCurrentQuestion d,
    rtype := "avomo_incident_start",
    quickReplies := quickRepliesForField (getCurrentField d),
    progress := some (1, total, 100 / total),
    severeEvent := some false }

/-- The `_start_avomo_incident_reporting` method: classify the trigger
message, initialize fresh session data (overwriting whatever was there), run
the pre-collection severity check on the raw message, and return either the
severe banner or the normal first question. -/
def startAvomoIncidentReporting (extractInfo : String → String → List (String × String))
    (now : Nat) (message userId : String) : AvomoBot × Reply :=
  let c := classifyAvomoIncidentType extractInfo message
  let incidentType := c.1
  let extracted := c.2.2
  let info := getEventTypeInfo incidentType
  let d : AvomoData :=
    { userId := userId, incidentType := incidentType, initialDescription := message,
      extractedInfo := extracted, collectedFields := [], currentFieldIndex := 0,
      requiredFields := info.requiredFields, startTime := now }
  let bot : AvomoBot := { avomoMode := true, data := d }
  let severe := validateSevereEvent incidentType message
  if severe.1 then
    (bot, .avomo (severeStartReply info severe.2 d))
  else
    (bot, .avomo (normalStartReply info d))

/-- The `process_message` override: a trigger message always (re)starts the
AVOMO flow; otherwise an active AVOMO session consumes the message as an
answer; otherwise the call falls through to the superclass handler. -/
def processMessage (extractInfo : String → String → List (String × String))
    (now : Nat) (okSystemStore okAvomoStore excOther : Bool)
    (bot : AvomoBot) (message userId : String) : AvomoBot × Reply :=
  if isIncidentReportingRequest message then
    startAvomoIncidentReporting extractInfo now message userId
  else if bot.avomoMode then
    continueAvomoIncidentReporting now okSystemStore okAvomoStore excOther bot message
  else
    (bot, .fallback message)

/-! ### Multi-turn runs -/

/-- Feeds a list of answer messages, one conversational turn each, through
`_continue_avomo_incident_reporting`, collecting the replies. -/
def runTurns (now : Nat) (okSystemStore okAvomoStore excOther : Bool) :
    AvomoBot → List String → AvomoBot × List Reply
  | bot, [] => (bot, [])
  | bot, m :: ms =>
      let step := continueAvomoIncidentReporting now okSystemStore okAvomoStore excOther bot m
      let rest := runTurns now okSystemStore okAvomoStore excOther step.1 ms
      (rest.1, step.2 :: rest.2)

/-- Each message in the list passes validation for the successive required
fields starting at index `idx`. -/
def allValidFrom (requiredFields : List String) (idx : Nat) : List String → Bool
  | [] => true
  | m :: ms =>
      (validateFieldResponse (requiredFields.getD idx "") m).isNone &&
        allValidFrom requiredFields (idx + 1) ms

/-! ### Concrete fixtures used by witnesses and counterexamples -/

/-- An extraction function producing no hints (used to instantiate the
`extractInfo` parameter on concrete runs). -/
def noHints : String → String → List (String × String) := fun _ _ => []

/-- A freshly started safety-concern session (the state
`_start_avomo_incident_reporting` builds for the trigger
`"something happened"`, with no extracted hints). -/
def sessionSafetyConcern : AvomoBot :=
  { avomoMode := true,
    data := { userId := "u1", incidentType := "safety_concern",
              initialDescription := "something happened", extractedInfo := [],
              collectedFields := [], currentFieldIndex := 0,
              requiredFields := (getEventTypeInfo "safety_concern").requiredFields,
              startTime := 0 } }

/-- An injury/illness session positioned at required-field index `i`
(index 7 is `employee_status`). -/
def sessionInjuryAt (i : Nat) : AvomoBot :=
  { avomoMode := true,
    data := { userId := "u1", incidentType := "injury_illness",
              initialDescription := "someone got hurt", extractedInfo := [],
              collectedFields := [], currentFieldIndex := i,
              requiredFields := (getEventTypeInfo "injury_illness").requiredFields,
              startTime := 0 } }

/-- A property-damage session with all four required answers collected,
ready for completion. -/
def sessionDamageDone : AvomoBot :=
  { avomoMode := true,
    data := { userId := "u1", incidentType := "property_damage",
              initialDescription := "a broken window", extractedInfo := [],
              collectedFields :=
                [("property_damage_description", "window cracked"),
                 ("approximate_total_cost", "500"),
                 ("property_damage_immediate_action", "taped it"),
                 ("enablon_report_submitted", "Yes - a report has been submitted to Enablon")],
              currentFieldIndex := 4,
              requiredFields := (getEventTypeInfo "property_damage").requiredFields,
              startTime := 0 } }

/-! ### Basic lemmas about the embedded primitives -/

theorem listStartsWith_iff (l pat : List Char) : listStartsWith l pat = true ↔ pat <+: l := by
  induction l generalizing pat with
  | nil =>
    cases pat with
    | nil =>
      rw [show listStartsWith ([] : List Char) [] = true from rfl]
      simp
    | cons b bs =>
      rw [show listStartsWith [] (b :: bs) = false from rfl]
      simp
  | cons a as ih =>
    cases pat with
    | nil =>
      rw [show listStartsWith (a :: as) [] = true from rfl]
      simp
    | cons b bs =>
      rw [show listStartsWith (a :: as) (b :: bs) = (a == b && listStartsWith as bs) from rfl,
        Bool.and_eq_true, beq_iff_eq, ih, List.cons_prefix_cons]
      constructor
      · rintro ⟨h1, h2⟩; exact ⟨h1.symm, h2⟩
      · rintro ⟨h1, h2⟩; exact ⟨h1.symm, h2⟩

theorem listContainsSub_iff (l pat : List Char) : listContainsSub l pat = true ↔ pat <:+: l := by
  induction l with
  | nil => simp [listContainsSub, listStartsWith_iff]
  | cons a as ih =>
    simp [listContainsSub, listStartsWith_iff, ih, List.infix_cons_iff]

theorem strContains_iff (s pat : String) : strContains s pat = true ↔ pat.data <:+: s.data :=
  listContainsSub_iff _ _

theorem strContains_append_mid (a b c : String) : strContains (a ++ b ++ c) b = true := by
  rw [strContains_iff]
  exact ⟨a.data, c.data, by simp⟩

theorem lookup_dictSet (l : List (String × String)) (k v : String) :
    (dictSet l k v).lookup k = some v := by
  induction l with
  | nil => simp [dictSet, List.lookup]
  | cons p t ih =>
    obtain ⟨k', v'⟩ := p
    by_cases hk : k' = k
    · subst hk; simp [dictSet, List.lookup]
    · have hbeq : (k == k') = false := beq_eq_false_iff_ne.mpr (Ne.symm hk)
      simp [dictSet, hk, List.lookup, hbeq, ih]

theorem pyMaxPair_mem (p : String × ℚ) (l : List (String × ℚ)) : pyMaxPair p l ∈ p :: l := by
  induction l generalizing p with
  | nil => simp [pyMaxPair]
  | cons q t ih =>
    have h := ih (if p.2 < q.2 then q else p)
    rcases List.mem_cons.1 h with h1 | h1
    · by_cases hpq : p.2 < q.2
      · simp only [pyMaxPair]
        rw [if_pos hpq] at h1 ⊢
        simp [h1]
      · simp only [pyMaxPair]
        rw [if_neg hpq] at h1 ⊢
        simp [h1]
    · simp [pyMaxPair, h1]

theorem pyMaxPair_le (p : String × ℚ) (l : List (String × ℚ)) :
    ∀ q ∈ p :: l, q.2 ≤ (pyMaxPair p l).2 := by
  induction l generalizing p with
  | nil => intro q hq; simp at hq; simp [pyMaxPair, hq]
  | cons r t ih =>
    intro q hq
    have hle := ih (if p.2 < r.2 then r else p)
    have hhead : (if p.2 < r.2 then r else p).2 ≤ (pyMaxPair (if p.2 < r.2 then r else p) t).2 :=
      hle _ (List.mem_cons_self _ _)
    have hrun : pyMaxPair p (r :: t) = pyMaxPair (if p.2 < r.2 then r else p) t := rfl
    rcases List.mem_cons.1 hq with h1 | h1
    · subst h1
      by_cases hpq : q.2 < r.2
      · rw [hrun, if_pos hpq] at *
        exact le_of_lt (lt_of_lt_of_le hpq hhead)
      · rw [hrun, if_neg hpq] at *
        exact hhead
    · rcases List.mem_cons.1 h1 with h2 | h2
      · subst h2
        by_cases hpq : p.2 < q.2
        · rw [hrun, if_pos hpq] at *
          exact hhead
        · rw [hrun, if_neg hpq] at *
          exact le_trans (le_of_not_lt hpq) hhead
      · rw [hrun]
        exact hle _ (List.mem_cons_of_mem _ h2)

theorem validateFieldResponse_strip_congr (field r1 r2 : String) (h : pyStrip r1 = pyStrip r2) :
    validateFieldResponse field r1 = validateFieldResponse field r2 := by
  unfold validateFieldResponse
  rw [h]

/-! ### Step lemmas for the conversation engine -/

theorem completeReport_fst (now : Nat) (ok1 ok2 exc : Bool) (bot : AvomoBot) :
    (completeAvomoIncidentReport now ok1 ok2 exc bot).1 =
      { avomoMode := false, data := emptyAvomoData } := by
  cases exc <;> rfl

theorem completeReport_isCompletion (now : Nat) (ok1 ok2 exc : Bool) (bot : AvomoBot) :
    isCompletionReply (completeAvomoIncidentReport now ok1 ok2 exc bot).2 = true := by
  cases exc <;> rfl

theorem continueReporting_invalid (now : Nat) (ok1 ok2 exc : Bool) (bot : AvomoBot)
    (msg err : String) (h : validateFieldResponse (getCurrentField bot.data) msg = some err) :
    continueAvomoIncidentReporting now ok1 ok2 exc bot msg =
      (bot, .avomo (validationErrorReply bot.data err)) := by
  unfold continueAvomoIncidentReporting
  rw [h]

theorem continueReporting_valid_mid (now : Nat) (ok1 ok2 exc : Bool) (bot : AvomoBot)
    (msg : String) (h : validateFieldResponse (getCurrentField bot.data) msg = none)
    (hlt : bot.data.currentFieldIndex + 1 < bot.data.requiredFields.length) :
    continueAvomoIncidentReporting now ok1 ok2 exc bot msg =
      ({ bot with data := advanceData bot.data msg },
        .avomo (continueReply (advanceData bot.data msg) msg)) := by
  unfold continueAvomoIncidentReporting
  rw [h]
  have hc : (advanceData bot.data msg).currentFieldIndex <
      (advanceData bot.data msg).requiredFields.length := by
    simpa [advanceData] using hlt
  simp only [hc, if_true]

theorem continueReporting_valid_last (now : Nat) (ok1 ok2 exc : Bool) (bot : AvomoBot)
    (msg : String) (h : validateFieldResponse (getCurrentField bot.data) msg = none)
    (hge : ¬ bot.data.currentFieldIndex + 1 < bot.data.requiredFields.length) :
    continueAvomoIncidentReporting now ok1 ok2 exc bot msg =
      completeAvomoIncidentReport now ok1 ok2 exc { bot with data := advanceData bot.data msg } := by
  unfold continueAvomoIncidentReporting
  rw [h]
  have hc : ¬ (advanceData bot.data msg).currentFieldIndex <
      (advanceData bot.data msg).requiredFields.length := by
    simpa [advanceData] using hge
  simp only [hc, if_false]

theorem continueReporting_snd_avomo (now : Nat) (ok1 ok2 exc : Bool) (bot : AvomoBot)
    (msg : String) :
    ∃ r, (continueAvomoIncidentReporting now ok1 ok2 exc bot msg).2 = .avomo r := by
  unfold continueAvomoIncidentReporting
  cases h : validateFieldResponse (getCurrentField bot.data) msg with
  | some err => exact ⟨_, rfl⟩
  | none =>
    by_cases hc : (advanceData bot.data msg).currentFieldIndex <
        (advanceData bot.data msg).requiredFields.length
    · simp only [hc, if_true]
      exact ⟨_, rfl⟩
    · simp only [hc, if_false]
      unfold completeAvomoIncidentReport
      cases exc
      · exact ⟨_, rfl⟩
      · exact ⟨_, rfl⟩

theorem continueReply_not_completion (d' : AvomoData) (msg : String) :
    isCompletionReply (.avomo (continueReply d' msg)) = false := rfl

theorem validationErrorReply_not_completion (d : AvomoData) (err : String) :
    isCompletionReply (.avomo (validationErrorReply d err)) = false := rfl

theorem getCurrentField_eq_getD (d : AvomoData)
    (h : d.currentFieldIndex < d.requiredFields.length) :
    getCurrentField d = d.requiredFields.getD d.currentFieldIndex "" := by
  unfold getCurrentField
  rw [if_pos h]

theorem advanceData_requiredFields (d : AvomoData) (msg : String) :
    (advanceData d msg).requiredFields = d.requiredFields := rfl

theorem advanceData_index (d : AvomoData) (msg : String) :
    (advanceData d msg).currentFieldIndex = d.currentFieldIndex + 1 := rfl

theorem runTurns_nil (now : Nat) (ok1 ok2 exc : Bool) (bot : AvomoBot) :
    runTurns now ok1 ok2 exc bot [] = (bot, []) := rfl

theorem runTurns_cons (now : Nat) (ok1 ok2 exc : Bool) (bot : AvomoBot) (m : String)
    (ms : List String) :
    runTurns now ok1 ok2 exc bot (m :: ms) =
      ((runTurns now ok1 ok2 exc (continueAvomoIncidentReporting now ok1 ok2 exc bot m).1 ms).1,
       (continueAvomoIncidentReporting now ok1 ok2 exc bot m).2 ::
         (runTurns now ok1 ok2 exc (continueAvomoIncidentReporting now ok1 ok2 exc bot m).1 ms).2) :=
  rfl

/-- Behaviour of a run of validated answers: as long as the index stays below
the number of required fields the session keeps collecting and no reply is a
completion; the answer that makes the index reach the end produces exactly
one completion reply, as the last reply, and resets the conversation state. -/
theorem runTurns_spec (now : Nat) (ok1 ok2 exc : Bool) :
    ∀ (msgs : List String) (bot : AvomoBot),
      bot.avomoMode = true →
      allValidFrom bot.data.requiredFields bot.data.currentFieldIndex msgs = true →
      bot.data.currentFieldIndex + msgs.length ≤ bot.data.requiredFields.length →
      (runTurns now ok1 ok2 exc bot msgs).2.length = msgs.length ∧
      (bot.data.currentFieldIndex + msgs.length < bot.data.requiredFields.length →
        ((runTurns now ok1 ok2 exc bot msgs).1.avomoMode = true ∧
         (runTurns now ok1 ok2 exc bot msgs).1.data.requiredFields = bot.data.requiredFields ∧
         (runTurns now ok1 ok2 exc bot msgs).1.data.currentFieldIndex =
           bot.data.currentFieldIndex + msgs.length ∧
         (runTurns now ok1 ok2 exc bot msgs).2.filter isCompletionReply = [])) ∧
      (bot.data.currentFieldIndex + msgs.length = bot.data.requiredFields.length →
        0 < msgs.length →
        ((runTurns now ok1 ok2 exc bot msgs).1.avomoMode = false ∧
         (runTurns now ok1 ok2 exc bot msgs).1.data = emptyAvomoData ∧
         ((runTurns now ok1 ok2 exc bot msgs).2.filter isCompletionReply).length = 1 ∧
         (∃ r, (runTurns now ok1 ok2 exc bot msgs).2.getLast? = some r ∧
            isCompletionReply r = true))) := by
  intro msgs
  induction msgs with
  | nil =>
    intro bot hm _hv _hle
    refine ⟨rfl, ?_, ?_⟩
    · intro _
      exact ⟨hm, rfl, rfl, rfl⟩
    · intro _ h0
      exact absurd h0 (by simp)
  | cons m ms ih =>
    intro bot hm hv hle
    rw [show allValidFrom bot.data.requiredFields bot.data.currentFieldIndex (m :: ms) =
        ((validateFieldResponse (bot.data.requiredFields.getD bot.data.currentFieldIndex "") m).isNone &&
          allValidFrom bot.data.requiredFields (bot.data.currentFieldIndex + 1) ms) from rfl,
      Bool.and_eq_true] at hv
    obtain ⟨hv1, hv2⟩ := hv
    have hidx : bot.data.currentFieldIndex < bot.data.requiredFields.length := by
      simp at hle; omega
    have hvalid : validateFieldResponse (getCurrentField bot.data) m = none := by
      rw [getCurrentField_eq_getD _ hidx]
      exact Option.isNone_iff_eq_none.mp hv1
    by_cases hlt : bot.data.currentFieldIndex + 1 < bot.data.requiredFields.length
    · -- mid-flow answer
      have hstep := continueReporting_valid_mid now ok1 ok2 exc bot m hvalid hlt
      have hbot' : ({ bot with data := advanceData bot.data m } : AvomoBot).avomoMode = true := hm
      have hih := ih { bot with data := advanceData bot.data m } hbot'
        (by simpa [advanceData] using hv2)
        (by simp only [advanceData]; simp at hle ⊢; omega)
      obtain ⟨ihlen, ihpart, ihexact⟩ := hih
      rw [runTurns_cons, hstep]
      refine ⟨by simpa using ihlen, ?_, ?_⟩
      · intro hfar
        have hfar' : ({ bot with data := advanceData bot.data m } : AvomoBot).data.currentFieldIndex +
            ms.length < ({ bot with data := advanceData bot.data m } : AvomoBot).data.requiredFields.length := by
          simp only [advanceData]; simp at hfar ⊢; omega
        obtain ⟨p1, p2, p3, p4⟩ := ihpart hfar'
        refine ⟨p1, by simpa [advanceData] using p2, ?_, ?_⟩
        · rw [p3]; simp [advanceData]; omega
        · simp only [List.filter_cons]
          rw [continueReply_not_completion]
          simpa using p4
      · intro hend _
        have hend' : ({ bot with data := advanceData bot.data m } : AvomoBot).data.currentFieldIndex +
            ms.length = ({ bot with data := advanceData bot.data m } : AvomoBot).data.requiredFields.length := by
          simp only [advanceData]; simp at hend ⊢; omega
        have hms : 0 < ms.length := by
          simp only [advanceData] at hend' ⊢
          omega
        obtain ⟨e1, e2, e3, e4⟩ := ihexact hend' hms
        refine ⟨e1, e2, ?_, ?_⟩
        · simp only [List.filter_cons]
          rw [continueReply_not_completion]
          simpa using e3
        · obtain ⟨r, hr1, hr2⟩ := e4
          refine ⟨r, ?_, hr2⟩
          have hne : (runTurns now ok1 ok2 exc
              ({ bot with data := advanceData bot.data m } : AvomoBot) ms).2 ≠ [] := by
            intro hcon
            rw [hcon] at ihlen
            simp at ihlen
            omega
          rw [List.getLast?_cons]
          simp [hr1, hne]
    · -- final answer: the index reaches the end and the report completes
      have hN : bot.data.currentFieldIndex + 1 = bot.data.requiredFields.length := by omega
      have hms0 : ms.length = 0 := by simp at hle; omega
      have hmsnil : ms = [] := List.length_eq_zero.mp hms0
      subst hmsnil
      have hstep := continueReporting_valid_last now ok1 ok2 exc bot m hvalid hlt
      rw [runTurns_cons, hstep, runTurns_nil]
      refine ⟨rfl, ?_, ?_⟩
      · intro hfar
        simp at hfar
        omega
      · intro _ _
        refine ⟨?_, ?_, ?_, ?_⟩
        · rw [completeReport_fst]
        · rw [completeReport_fst]
        · simp [List.filter_cons, completeReport_isCompletion]
        · exact ⟨(completeAvomoIncidentReport now ok1 ok2 exc
              { bot with data := advanceData bot.data m }).2, rfl,
            completeReport_isCompletion _ _ _ _ _⟩

theorem strContains_append_of_right (x y pat : String) (h : strContains y pat = true) :
    strContains (x ++ y) pat = true := by
  rw [strContains_iff] at h ⊢
  obtain ⟨s, t, hst⟩ := h
  refine ⟨x.data ++ s, t, ?_⟩
  rw [String.data_append, ← hst]
  simp [List.append_assoc]

/-! ### Claim C1 -/

/-- C1, counterexample: the engine keeps the session in process memory, not
in a durable store.  After the trigger `"something happened"` the long-lived
bot object itself carries `avomo_mode = true`; the next non-trigger turn is
answered out of that in-memory state, while the same turn served by a fresh
process (`create_avomo_chatbot`, i.e. a restart) falls through to the generic
handler: the in-progress session does not survive a process restart. -/
theorem C1_counterexample :
    ((processMessage noHints 0 true true false createAvomoChatbot
        "something happened" "u1").1.avomoMode = true) ∧
    (replyTag (processMessage noHints 0 true true false
        (processMessage noHints 0 true true false createAvomoChatbot
          "something happened" "u1").1 "hello there" "u1").2 =
      some "avomo_incident_continue") ∧
    ((processMessage noHints 0 true true false createAvomoChatbot
        "hello there" "u1").2 = Reply.fallback "hello there") :=
  ⟨by decide, by decide, by decide⟩

/-- C1, amended: conversation state lives in the in-memory fields of the
long-lived chatbot instance between turns; there is no session store.  A
non-trigger message is answered by the incident flow exactly when the
in-memory `avomo_mode` flag is set, and on a fresh instance (what a process
restart produces) it falls through to the generic handler, so an in-progress
session does not survive a restart. -/
theorem C1_amended (extractInfo : String → String → List (String × String))
    (now : Nat) (ok1 ok2 exc : Bool) (msg userId : String)
    (h : isIncidentReportingRequest msg = false) :
    (processMessage extractInfo now ok1 ok2 exc createAvomoChatbot msg userId).2 =
      Reply.fallback msg ∧
    ∀ bot : AvomoBot, bot.avomoMode = true →
      (processMessage extractInfo now ok1 ok2 exc bot msg userId).2 ≠ Reply.fallback msg := by
  constructor
  · simp [processMessage, h, createAvomoChatbot]
  · intro bot hbm
    obtain ⟨r, hr⟩ := continueReporting_snd_avomo now ok1 ok2 exc bot msg
    simp [processMessage, h, hbm, hr]

/-- C1, witness for the amended theorem at a concrete non-trigger message and
a concrete in-progress session. -/
theorem C1_witness :
    isIncidentReportingRequest "status update please" = false ∧
    ((processMessage noHints 0 true true false createAvomoChatbot
        "status update please" "u1").2 = Reply.fallback "status update please") ∧
    (processMessage noHints 0 true true false sessionSafetyConcern
        "status update please" "u1").2 ≠ Reply.fallback "status update please" := by
  have h := C1_amended noHints 0 true true false "status update please" "u1" (by decide)
  exact ⟨by decide, h.1, h.2 sessionSafetyConcern rfl⟩

/-! ### Claim C2 -/

/-- C2: when the current field's validation rejects the answer, the engine
returns the bot state unchanged (index not advanced, nothing stored) together
with a retry response of type `avomo_validation_error` whose message contains
the validation error reason and the current field's prompt. -/
theorem C2_validation_failure_retries (now : Nat) (ok1 ok2 exc : Bool) (bot : AvomoBot)
    (msg err : String)
    (h : validateFieldResponse (getCurrentField bot.data) msg = some err) :
    (continueAvomoIncidentReporting now ok1 ok2 exc bot msg).1 = bot ∧
    (continueAvomoIncidentReporting now ok1 ok2 exc bot msg).2 =
      Reply.avomo (validationErrorReply bot.data err) ∧
    (validationErrorReply bot.data err).rtype = "avomo_validation_error" ∧
    strContains (validationErrorReply bot.data err).message err = true ∧
    strContains (validationErrorReply bot.data err).message (getCurrentQuestion bot.data) = true := by
  have hstep := continueReporting_invalid now ok1 ok2 exc bot msg err h
  refine ⟨by rw [hstep], by rw [hstep], rfl, ?_, ?_⟩
  · show strContains ("❌ **Please provide a valid response**\n\n" ++ err ++
      "\n\n**Question:** " ++ getCurrentQuestion bot.data) err = true
    rw [strContains_iff]
    refine ⟨"❌ **Please provide a valid response**\n\n".data,
      ("\n\n**Question:** " ++ getCurrentQuestion bot.data).data, ?_⟩
    simp [String.data_append, List.append_assoc]
  · show strContains ("❌ **Please provide a valid response**\n\n" ++ err ++
      "\n\n**Question:** " ++ getCurrentQuestion bot.data) (getCurrentQuestion bot.data) = true
    rw [strContains_iff]
    refine ⟨"❌ **Please provide a valid response**\n\n".data ++ err.data ++
      "\n\n**Question:** ".data, [], ?_⟩
    simp [String.data_append, List.append_assoc]

/-- C2, witness: an injury session at the `employee_status` field rejects the
answer `"boss"`, leaves the state untouched, and the retry message carries the
current prompt. -/
theorem C2_witness :
    validateFieldResponse (getCurrentField (sessionInjuryAt 7).data) "boss" =
      some "Please select from: Full time, Part Time, Temporary, Contractor, Visitor" ∧
    (continueAvomoIncidentReporting 0 true true false (sessionInjuryAt 7) "boss").1 =
      sessionInjuryAt 7 ∧
    strContains (validationErrorReply (sessionInjuryAt 7).data
        "Please select from: Full time, Part Time, Temporary, Contractor, Visitor").message
      (getCurrentQuestion (sessionInjuryAt 7).data) = true := by
  have h : validateFieldResponse (getCurrentField (sessionInjuryAt 7).data) "boss" =
      some "Please select from: Full time, Part Time, Temporary, Contractor, Visitor" := by decide
  have happ := C2_validation_failure_retries 0 true true false (sessionInjuryAt 7) "boss" _ h
  exact ⟨h, happ.1, happ.2.2.2.2⟩

/-! ### Claim C3 -/

/-- C3: from a fresh session (index 0) over `N` required fields, feeding
exactly `N` valid answers yields exactly one completion reply, as the last
reply, and afterwards the state is reset to idle (`avomo_mode` off, empty
incident data); feeding fewer than `N` valid answers yields no completion
reply and the session is still collecting. -/
theorem C3_n_valid_answers_complete (now : Nat) (ok1 ok2 exc : Bool) (bot : AvomoBot)
    (msgs : List String)
    (hm : bot.avomoMode = true)
    (h0 : bot.data.currentFieldIndex = 0)
    (hv : allValidFrom bot.data.requiredFields 0 msgs = true) :
    (msgs.length = bot.data.requiredFields.length → 0 < msgs.length →
      ((runTurns now ok1 ok2 exc bot msgs).1.avomoMode = false ∧
       (runTurns now ok1 ok2 exc bot msgs).1.data = emptyAvomoData ∧
       ((runTurns now ok1 ok2 exc bot msgs).2.filter isCompletionReply).length = 1 ∧
       (∃ r, (runTurns now ok1 ok2 exc bot msgs).2.getLast? = some r ∧
          isCompletionReply r = true) ∧
       (runTurns now ok1 ok2 exc bot msgs).2.length = msgs.length)) ∧
    (msgs.length < bot.data.requiredFields.length →
      ((runTurns now ok1 ok2 exc bot msgs).1.avomoMode = true ∧
       (runTurns now ok1 ok2 exc bot msgs).2.filter isCompletionReply = [])) := by
  have hv' : allValidFrom bot.data.requiredFields bot.data.currentFieldIndex msgs = true := by
    rw [h0]; exact hv
  constructor
  · intro hlen hpos
    obtain ⟨l1, _, e⟩ := runTurns_spec now ok1 ok2 exc msgs bot hm hv' (by omega)
    obtain ⟨e1, e2, e3, e4⟩ := e (by omega) hpos
    exact ⟨e1, e2, e3, e4, l1⟩
  · intro hlt
    obtain ⟨_, p, _⟩ := runTurns_spec now ok1 ok2 exc msgs bot hm hv' (by omega)
    obtain ⟨p1, _, _, p4⟩ := p (by omega)
    exact ⟨p1, p4⟩

/-- C3, witness: the two-field safety-concern category completes exactly on
the second valid answer and resets the state. -/
theorem C3_witness :
    (sessionSafetyConcern.avomoMode = true ∧
     sessionSafetyConcern.data.currentFieldIndex = 0 ∧
     allValidFrom sessionSafetyConcern.data.requiredFields 0
       ["wet floor near dock", "put up a sign"] = true ∧
     (["wet floor near dock", "put up a sign"] : List String).length =
       sessionSafetyConcern.data.requiredFields.length) ∧
    ((runTurns 0 true true false sessionSafetyConcern
        ["wet floor near dock", "put up a sign"]).1.avomoMode = false ∧
     (runTurns 0 true true false sessionSafetyConcern
        ["wet floor near dock", "put up a sign"]).1.data = emptyAvomoData ∧
     ((runTurns 0 true true false sessionSafetyConcern
        ["wet floor near dock", "put up a sign"]).2.filter isCompletionReply).length = 1 ∧
     (∃ r, (runTurns 0 true true false sessionSafetyConcern
        ["wet floor near dock", "put up a sign"]).2.getLast? = some r ∧
        isCompletionReply r = true) ∧
     (runTurns 0 true true false sessionSafetyConcern
        ["wet floor near dock", "put up a sign"]).2.length = 2) := by
  have h := C3_n_valid_answers_complete 0 true true false sessionSafetyConcern
    ["wet floor near dock", "put up a sign"] rfl rfl (by decide)
  have h2 := h.1 (by decide) (by decide)
  exact ⟨⟨rfl, rfl, by decide, by decide⟩, h2⟩

/-! ### Claim C4 -/

/-- C4, counterexample: `"full time"` case-insensitively equals the allowed
employment status `"Full time"` yet is rejected (the check is
case-sensitive), and the yes/no-style field `anyone_injured` has no
vocabulary check at all: `"maybe"` is not an allowed quick-reply value but
passes validation. -/
theorem C4_counterexample :
    validateFieldResponse "employee_status" "full time" =
      some "Please select from: Full time, Part Time, Temporary, Contractor, Visitor" ∧
    strLower "full time" = strLower "Full time" ∧
    "Full time" ∈ employeeStatusTypes ∧
    validateFieldResponse "anyone_injured" "maybe" = none ∧
    ("maybe" ∈ quickRepliesForField "anyone_injured" → False) :=
  ⟨by decide, by decide, by decide, by decide, by decide⟩

/-- C4, amended: only the `site` field is matched case-insensitively against
its closed vocabulary (and rejection lists the allowed values); the
employment-status, injury-type and body-part vocabularies require exact,
case-sensitive equality of the stripped answer (employment-status rejections
list the values, injury-type rejections only name the list); yes/no-style
fields such as `anyone_injured` carry no vocabulary check — any stripped
answer of at least two characters is accepted. -/
theorem C4_amended (resp : String) :
    (validateFieldResponse "site" resp = none ↔
      2 ≤ pyLen (pyStrip resp) ∧
      (avomoSites.map (fun p => strLower p.2)).contains (strLower (pyStrip resp)) = true) ∧
    (2 ≤ pyLen (pyStrip resp) →
      (avomoSites.map (fun p => strLower p.2)).contains (strLower (pyStrip resp)) = false →
      validateFieldResponse "site" resp =
        some ("Please select from: " ++ joinComma (avomoSites.map Prod.snd))) ∧
    (validateFieldResponse "employee_status" resp = none ↔
      2 ≤ pyLen (pyStrip resp) ∧ employeeStatusTypes.contains (pyStrip resp) = true) ∧
    (2 ≤ pyLen (pyStrip resp) → employeeStatusTypes.contains (pyStrip resp) = false →
      validateFieldResponse "employee_status" resp =
        some ("Please select from: " ++ joinComma employeeStatusTypes)) ∧
    (validateFieldResponse "injury_illness_type" resp = none ↔
      2 ≤ pyLen (pyStrip resp) ∧ injuryIllnessTypes.contains (pyStrip resp) = true) ∧
    (2 ≤ pyLen (pyStrip resp) → injuryIllnessTypes.contains (pyStrip resp) = false →
      validateFieldResponse "injury_illness_type" resp =
        some "Please select from the provided injury types list.") ∧
    (validateFieldResponse "affected_body_parts" resp = none ↔
      2 ≤ pyLen (pyStrip resp) ∧ bodyParts.contains (pyStrip resp) = true) ∧
    (validateFieldResponse "anyone_injured" resp = none ↔ 2 ≤ pyLen (pyStrip resp)) := by
  have hsite : validateFieldResponse "site" resp =
      (if pyLen (pyStrip resp) < 2 then some "Please provide a more detailed response."
       else if (avomoSites.map (fun p => strLower p.2)).contains (strLower (pyStrip resp)) then
         none
       else some ("Please select from: " ++ joinComma (avomoSites.map Prod.snd))) := rfl
  have hemp : validateFieldResponse "employee_status" resp =
      (if pyLen (pyStrip resp) < 2 then some "Please provide a more detailed response."
       else if employeeStatusTypes.contains (pyStrip resp) then none
       else some ("Please select from: " ++ joinComma employeeStatusTypes)) := rfl
  have hinj : validateFieldResponse "injury_illness_type" resp =
      (if pyLen (pyStrip resp) < 2 then some "Please provide a more detailed response."
       else if injuryIllnessTypes.contains (pyStrip resp) then none
       else some "Please select from the provided injury types list.") := rfl
  have hbody : validateFieldResponse "affected_body_parts" resp =
      (if pyLen (pyStrip resp) < 2 then some "Please provide a more detailed response."
       else if bodyParts.contains (pyStrip resp) then none
       else some "Please select from the body parts list.") := rfl
  have hany : validateFieldResponse "anyone_injured" resp =
      (if pyLen (pyStrip resp) < 2 then some "Please provide a more detailed response."
       else none) := rfl
  refine ⟨?_, ?_, ?_, ?_, ?_, ?_, ?_, ?_⟩
  · rw [hsite]
    split_ifs with h1 h2
    · constructor
      · intro hx; simp at hx
      · rintro ⟨hx, -⟩; omega
    · exact ⟨fun _ => ⟨by omega, h2⟩, fun _ => rfl⟩
    · constructor
      · intro hx; simp at hx
      · rintro ⟨-, hx⟩; exact absurd hx h2
  · intro hl hc
    rw [hsite, if_neg (by omega), if_neg (by rw [hc]; exact Bool.false_ne_true)]
  · rw [hemp]
    split_ifs with h1 h2
    · constructor
      · intro hx; simp at hx
      · rintro ⟨hx, -⟩; omega
    · exact ⟨fun _ => ⟨by omega, h2⟩, fun _ => rfl⟩
    · constructor
      · intro hx; simp at hx
      · rintro ⟨-, hx⟩; exact absurd hx h2
  · intro hl hc
    rw [hemp, if_neg (by omega), if_neg (by rw [hc]; exact Bool.false_ne_true)]
  · rw [hinj]
    split_ifs with h1 h2
    · constructor
      · intro hx; simp at hx
      · rintro ⟨hx, -⟩; omega
    · exact ⟨fun _ => ⟨by omega, h2⟩, fun _ => rfl⟩
    · constructor
      · intro hx; simp at hx
      · rintro ⟨-, hx⟩; exact absurd hx h2
  · intro hl hc
    rw [hinj, if_neg (by omega), if_neg (by rw [hc]; exact Bool.false_ne_true)]
  · rw [hbody]
    split_ifs with h1 h2
    · constructor
      · intro hx; simp at hx
      · rintro ⟨hx, -⟩; omega
    · exact ⟨fun _ => ⟨by omega, h2⟩, fun _ => rfl⟩
    · constructor
      · intro hx; simp at hx
      · rintro ⟨-, hx⟩; exact absurd hx h2
  · rw [hany]
    split_ifs with h1
    · constructor
      · intro hx; simp at hx
      · intro hx; omega
    · exact ⟨fun _ => by omega, fun _ => rfl⟩

/-- C4, witness for the amended theorem: the case-sensitive rejection of
`"full time"` with the value-listing error, and the case-insensitive
acceptance of `"AUSTIN STASSNEY"` for the site field. -/
theorem C4_witness :
    validateFieldResponse "employee_status" "full time" =
      some ("Please select from: " ++ joinComma employeeStatusTypes) ∧
    validateFieldResponse "site" "AUSTIN STASSNEY" = none := by
  refine ⟨(C4_amended "full time").2.2.2.1 (by decide) (by decide), ?_⟩
  exact ((C4_amended "AUSTIN STASSNEY").1).mpr ⟨by decide, by decide⟩

/-! ### Claim C5 -/

/-- C5, counterexample: on a description with no keyword hit the classifier
returns the fixed confidence 1/2, which differs from
`min(cap, best normalized score + bias) = min(0.95, 0 + 0.3) = 0.3`; so the
confidence does not equal that formula in every case. -/
theorem C5_counterexample :
    (classifyAvomoIncidentType noHints "hello").1 = "safety_concern" ∧
    (classifyAvomoIncidentType noHints "hello").2.1 = 1/2 ∧
    bestNormalizedScore "hello" = 0 ∧
    min (95/100 : ℚ) (bestNormalizedScore "hello" + 3/10) = 3/10 ∧
    (1/2 : ℚ) ≠ 3/10 := by
  have h : classifyScores "hello" = [] := by decide
  have hbest : bestNormalizedScore "hello" = 0 := by
    unfold bestNormalizedScore; rw [h]
  refine ⟨?_, ?_, hbest, ?_, by norm_num⟩
  · unfold classifyAvomoIncidentType; rw [h]
  · unfold classifyAvomoIncidentType; rw [h]
  · rw [hbest]; norm_num

/-- C5, amended: when at least one category scores above zero, the selected
category is the (first) argmax of the normalized scores and the confidence is
exactly `min(0.95, best normalized score + 0.3)`; when no category scores
above zero, the classifier returns `safety_concern` with the fixed
confidence 1/2, which is not given by that formula; in every case the
confidence is strictly below 1. -/
theorem C5_amended (extractInfo : String → String → List (String × String))
    (description : String) :
    (classifyScores description = [] →
      (classifyAvomoIncidentType extractInfo description).1 = "safety_concern" ∧
      (classifyAvomoIncidentType extractInfo description).2.1 = 1/2) ∧
    (classifyScores description ≠ [] →
      ((classifyAvomoIncidentType extractInfo description).2.1 =
         min (95/100 : ℚ) (bestNormalizedScore description + 3/10) ∧
       ((classifyAvomoIncidentType extractInfo description).1,
         bestNormalizedScore description) ∈ classifyScores description ∧
       (∀ q ∈ classifyScores description, q.2 ≤ bestNormalizedScore description))) ∧
    (classifyAvomoIncidentType extractInfo description).2.1 < 1 := by
  cases h : classifyScores description with
  | nil =>
    have hval : classifyAvomoIncidentType extractInfo description =
        ("safety_concern", 1/2, []) := by
      unfold classifyAvomoIncidentType; rw [h]
    refine ⟨fun _ => ⟨by rw [hval], by rw [hval]⟩, fun hne => absurd rfl hne, ?_⟩
    rw [hval]; norm_num
  | cons p t =>
    have hbest : bestNormalizedScore description = (pyMaxPair p t).2 := by
      unfold bestNormalizedScore; rw [h]
    have hval : classifyAvomoIncidentType extractInfo description =
        ((pyMaxPair p t).1, min (95/100 : ℚ) ((pyMaxPair p t).2 + 3/10),
          extractInfo description (pyMaxPair p t).1) := by
      unfold classifyAvomoIncidentType; rw [h]
    refine ⟨?_, ?_, ?_⟩
    · intro hnil
      exact absurd hnil (by simp)
    · intro _
      refine ⟨?_, ?_, ?_⟩
      · rw [hval, hbest]
      · rw [hval, hbest]
        simpa using pyMaxPair_mem p t
      · rw [hbest]
        exact pyMaxPair_le p t
    · rw [hval]
      exact lt_of_le_of_lt (min_le_left _ _) (by norm_num)

/-- C5, witness for the amended theorem, exercising the no-keyword default at
`"good morning"` and the cap on the confidence. -/
theorem C5_witness :
    classifyScores "good morning" = [] ∧
    (classifyAvomoIncidentType noHints "good morning").1 = "safety_concern" ∧
    (classifyAvomoIncidentType noHints "good morning").2.1 = 1/2 ∧
    (classifyAvomoIncidentType noHints "good morning").2.1 < 1 := by
  have hnil : classifyScores "good morning" = [] := by decide
  have h := C5_amended noHints "good morning"
  obtain ⟨h1, -, h3⟩ := h
  obtain ⟨ha, hb⟩ := h1 hnil
  exact ⟨hnil, ha, hb, h3⟩

/-! ### Claim C6 -/

/-- C6, counterexample: the raw scoring is an unweighted keyword count — the
injury category's keyword list contains neither `"fracture"` nor `"broken"`,
so fracture-type terms carry no weight at all (let alone 2x), and the
description `"my arm is broken"` is routed to the property-damage category. -/
theorem C6_counterexample :
    (classifyAvomoIncidentType noHints "my arm is broken").1 = "property_damage" ∧
    keywordScore (strLower "the employee suffered a fracture") injuryIllnessKeywords = 0 ∧
    keywordScore (strLower "my arm is broken") injuryIllnessKeywords = 0 ∧
    keywordScore (strLower "my arm is broken") propertyDamageKeywords = 1 :=
  ⟨by decide, by decide, by decide, by decide⟩

/-- C6, amended: every keyword contributes weight exactly 1 to its category's
raw score; `"broken"` is a property-damage keyword and not an injury keyword,
`"fracture"` is not an injury keyword, so any description containing
`"broken"` gives the property-damage category a normalized score of at least
1/6 while fracture-type wording adds nothing to the injury score. -/
theorem C6_amended (description : String)
    (h : strContains (strLower description) "broken" = true) :
    (∃ s : ℚ, ("property_damage", s) ∈ classifyScores description ∧ (1 : ℚ)/6 ≤ s) ∧
    "broken" ∈ propertyDamageKeywords ∧
    ("broken" ∈ injuryIllnessKeywords → False) ∧
    ("fracture" ∈ injuryIllnessKeywords → False) := by
  refine ⟨?_, by decide, by decide, by decide⟩
  have hscore : 0 < keywordScore (strLower description) propertyDamageKeywords := by
    have hb : "broken" ∈ propertyDamageKeywords.filter
        (fun k => strContains (strLower description) k) :=
      List.mem_filter.mpr ⟨by decide, h⟩
    unfold keywordScore
    exact List.length_pos.mpr (List.ne_nil_of_mem hb)
  have hexp : classifyScores description =
      eventTypeKeywords.filterMap (fun p =>
        if 0 < keywordScore (strLower description) p.2 then
          some (p.1, (keywordScore (strLower description) p.2 : ℚ) / (p.2.length : ℚ))
        else none) := rfl
  refine ⟨(keywordScore (strLower description) propertyDamageKeywords : ℚ) /
      (propertyDamageKeywords.length : ℚ), ?_, ?_⟩
  · rw [hexp, List.mem_filterMap]
    refine ⟨("property_damage", propertyDamageKeywords), by decide, ?_⟩
    rw [if_pos hscore]
  · have hlen : (propertyDamageKeywords.length : ℚ) = 6 := by norm_num [propertyDamageKeywords]
    rw [hlen]
    have h1 : (1 : ℚ) ≤ (keywordScore (strLower description) propertyDamageKeywords : ℚ) := by
      exact_mod_cast hscore
    gcongr

/-- C6, witness for the amended theorem at `"my arm is broken"`. -/
theorem C6_witness :
    strContains (strLower "my arm is broken") "broken" = true ∧
    (∃ s : ℚ, ("property_damage", s) ∈ classifyScores "my arm is broken" ∧ (1 : ℚ)/6 ≤ s) := by
  have h := C6_amended "my arm is broken" (by decide)
  exact ⟨by decide, h.1⟩

/-! ### Claim C7 -/

/-- C7, counterexample: a failure of either store write is invisible to the
caller — the completion returns exactly the same state and success response
(type `avomo_incident_completed`, no disclaimer) whether the writes succeed
or fail, even though `_save_avomo_incident` reported `False`. -/
theorem C7_counterexample :
    completeAvomoIncidentReport 5 false true false sessionDamageDone =
      completeAvomoIncidentReport 5 true true false sessionDamageDone ∧
    completeAvomoIncidentReport 5 true false false sessionDamageDone =
      completeAvomoIncidentReport 5 true true false sessionDamageDone ∧
    saveAvomoIncident (completedData 5 sessionDamageDone.data) false true = false ∧
    replyTag (completeAvomoIncidentReport 5 false true false sessionDamageDone).2 =
      some "avomo_incident_completed" :=
  ⟨rfl, rfl, rfl, rfl⟩

/-- C7, amended: `_save_avomo_incident` catches all store-write errors
internally and reports them only through its Boolean return value, which
`_complete_avomo_incident_report` discards: the completion's state and
response are identical for every combination of store-write outcomes, and the
normal path always returns the plain success type with no disclaimer.  Only
an exception raised elsewhere in the completion (not a store-write failure)
produces the distinguishable `avomo_incident_completed_with_error` response,
whose message carries the technical-issue disclaimer. -/
theorem C7_amended (now : Nat) (ok1 ok2 ok1' ok2' : Bool) (exc : Bool) (bot : AvomoBot) :
    completeAvomoIncidentReport now ok1 ok2 exc bot =
      completeAvomoIncidentReport now ok1' ok2' exc bot ∧
    saveAvomoIncident (completedData now bot.data) ok1 ok2 = (ok1 && ok2) ∧
    replyTag (completeAvomoIncidentReport now ok1 ok2 false bot).2 =
      some "avomo_incident_completed" ∧
    replyTag (completeAvomoIncidentReport now ok1 ok2 true bot).2 =
      some "avomo_incident_completed_with_error" ∧
    strContains (errorReply now).message "technical issue" = true := by
  refine ⟨by cases exc <;> rfl, rfl, rfl, rfl, ?_⟩
  show strContains ("✅ **Incident Report Submitted**\n\nIncident ID: `AVOMO-" ++ toString now ++
      "`\n\n⚠️ There was a technical issue, but your core report has been recorded and the Response & Recovery Team has been notified.\n\nIf you need immediate assistance, please contact:\n• Emergency: 911\n• AVOMO Response Team: (555) 123-4567")
    "technical issue" = true
  exact strContains_append_of_right _ _ _ (by decide)

/-! ### Claim C8 -/

/-- C8: the description `"the AV hit a barrier and called 911"` classifies to
the vehicle-collision category, the pre-collection severity check on that raw
description returns severe with the `av_collision_emergency` label, and the
session start accordingly takes the severe-banner branch. -/
theorem C8_scenario (extractInfo : String → String → List (String × String)) :
    (classifyAvomoIncidentType extractInfo "the AV hit a barrier and called 911").1 =
      "vehicle_collision" ∧
    validateSevereEvent "vehicle_collision" "the AV hit a barrier and called 911" =
      (true, "av_collision_emergency") ∧
    replyTag (startAvomoIncidentReporting extractInfo 0
        "the AV hit a barrier and called 911" "u1").2 = some "severe_incident_start" := by
  refine ⟨rfl, by decide, rfl⟩

/-- C8, witness at the trivial extraction function. -/
theorem C8_witness :
    (classifyAvomoIncidentType noHints "the AV hit a barrier and called 911").1 =
      "vehicle_collision" :=
  (C8_scenario noHints).1

/-! ### Claim C9 -/

/-- C9: validation is a function of the whitespace-stripped answer only,
while the value stored for the current field is the raw, unstripped message
verbatim (shown here for a mid-flow answer, where the new session state is
observable). -/
theorem C9_raw_stored (now : Nat) (ok1 ok2 exc : Bool) (bot : AvomoBot) (msg : String)
    (hvalid : validateFieldResponse (getCurrentField bot.data) msg = none)
    (hrange : bot.data.currentFieldIndex + 1 < bot.data.requiredFields.length) :
    (∀ field r1 r2, pyStrip r1 = pyStrip r2 →
      validateFieldResponse field r1 = validateFieldResponse field r2) ∧
    ((continueAvomoIncidentReporting now ok1 ok2 exc bot msg).1.data.collectedFields.lookup
        (getCurrentField bot.data) = some msg) := by
  refine ⟨validateFieldResponse_strip_congr, ?_⟩
  rw [continueReporting_valid_mid now ok1 ok2 exc bot msg hvalid hrange]
  show (advanceData bot.data msg).collectedFields.lookup (getCurrentField bot.data) = some msg
  unfold advanceData
  exact lookup_dictSet _ _ _

/-- C9, witness: `" Full time "` (surrounding whitespace) passes the
employment-status validation and is stored verbatim, although it is not
literally an allowed value. -/
theorem C9_witness :
    validateFieldResponse (getCurrentField (sessionInjuryAt 7).data) " Full time " = none ∧
    ((continueAvomoIncidentReporting 0 true true false (sessionInjuryAt 7)
        " Full time ").1.data.collectedFields.lookup "employee_status" = some " Full time ") ∧
    (" Full time " ∈ employeeStatusTypes → False) := by
  have h := C9_raw_stored 0 true true false (sessionInjuryAt 7) " Full time "
    (by decide) (by decide)
  refine ⟨by decide, ?_, by decide⟩
  have hcf : getCurrentField (sessionInjuryAt 7).data = "employee_status" := by decide
  rw [← hcf]
  exact h.2

/-! ### Claim C10 -/

/-- C10: every completion attempt — normal path or internal-exception path,
store writes succeeding or failing — leaves the conversation state fully
reset (incident mode off, incident data empty), and a subsequent message
without a start trigger is delegated to the generic handler instead of being
treated as an incident-field answer. -/
theorem C10_reset_after_completion (now : Nat) (ok1 ok2 exc : Bool) (bot : AvomoBot)
    (extractInfo : String → String → List (String × String)) (now2 : Nat)
    (ok1' ok2' exc' : Bool) (msg userId : String)
    (h : isIncidentReportingRequest msg = false) :
    ((completeAvomoIncidentReport now ok1 ok2 exc bot).1.avomoMode = false) ∧
    ((completeAvomoIncidentReport now ok1 ok2 exc bot).1.data = emptyAvomoData) ∧
    ((processMessage extractInfo now2 ok1' ok2' exc'
        (completeAvomoIncidentReport now ok1 ok2 exc bot).1 msg userId).2 =
      Reply.fallback msg) := by
  rw [completeReport_fst]
  exact ⟨rfl, rfl, by simp [processMessage, h]⟩

/-- C10, witness: a concrete completion through the exception path, followed
by a non-trigger message handled by the generic fallback. -/
theorem C10_witness :
    isIncidentReportingRequest "thanks" = false ∧
    ((completeAvomoIncidentReport 0 true true true sessionDamageDone).1.avomoMode = false) ∧
    ((processMessage noHints 1 true true false
        (completeAvomoIncidentReport 0 true true true sessionDamageDone).1 "thanks" "u1").2 =
      Reply.fallback "thanks") := by
  have h := C10_reset_after_completion 0 true true true sessionDamageDone noHints 1 true true
    false "thanks" "u1" (by decide)
  exact ⟨by decide, h.1, h.2.2⟩
